import Mathlib

/-!
Verification development for the SafeDoser backend (Python sources).

Shallow embedding of the security-relevant core:
  * `token_service.py` — verification / password-reset token lifecycle
    (store with invalidation of predecessors, atomic verify-and-consume);
  * `auth.py` — JWT session credentials and the user-facing auth service;
  * `oauth_service.py` — OAuth reconciliation (`create_or_get_oauth_user`);
  * `app.py` — the `/auth/forgot-password` handler's response construction.

Time is modelled as `Nat` seconds; the Supabase tables are modelled as Lean
lists of rows, with the query-builder calls (`.eq`, `.insert`, `.update`,
`.select`) translated to list filtering / mapping over those rows.
Exceptions raised by the storage backend are modelled with `Except`.
-/

namespace SafeDoser

/-- A row of the `verification_tokens` table
(logical columns per `token_service.py`:
`id, email, token, token_type, expires_at, used, used_at?, created_at`). -/
structure TokenRow where
  id : Nat
  email : String
  token : String
  token_type : String
  expires_at : Nat
  used : Bool
  used_at : Option Nat
  created_at : Nat
deriving DecidableEq, Repr

namespace TokenService

/-- The select in `TokenService.verify_token` (token_service.py line 100):
`select("*").eq("email", email).eq("token", token).eq("token_type", token_type).eq("used", False)`. -/
def findToken (email token token_type : String) (db : List TokenRow) : List TokenRow :=
  db.filter (fun r =>
    r.email == email && r.token == token && r.token_type == token_type && r.used == false)

/-- `TokenService._invalidate_existing_tokens` (token_service.py lines 131-146):
marks every unused row of the given `(email, token_type)` as used,
stamping `used_at`. -/
def invalidate_existing_tokens (email token_type : String) (now : Nat)
    (db : List TokenRow) : List TokenRow :=
  db.map (fun r =>
    if r.email == email && r.token_type == token_type && r.used == false then
      { r with used := true, used_at := some now }
    else r)

/-- `TokenService.store_verification_token` (token_service.py lines 34-63):
first invalidates existing `email_verification` tokens for the email, then
inserts a fresh unused row expiring 24 hours (86400 s) after `now`.
`insert_ok` models whether the insert reports data back (the function
returns `False`, without rolling back the invalidation, when it does not);
`id` is the row id the database assigns. -/
def store_verification_token (email token : String) (now id : Nat) (insert_ok : Bool)
    (db : List TokenRow) : List TokenRow × Bool :=
  let db1 := invalidate_existing_tokens email "email_verification" now db
  let row : TokenRow :=
    { id := id, email := email, token := token, token_type := "email_verification",
      expires_at := now + 24 * 3600, used := false, used_at := none, created_at := now }
  if insert_ok then (db1 ++ [row], true) else (db1, false)

/-- `TokenService.store_reset_token` (token_service.py lines 65-94):
same as `store_verification_token` but for purpose `password_reset`
with a 1 hour (3600 s) expiry. -/
def store_reset_token (email token : String) (now id : Nat) (insert_ok : Bool)
    (db : List TokenRow) : List TokenRow × Bool :=
  let db1 := invalidate_existing_tokens email "password_reset" now db
  let row : TokenRow :=
    { id := id, email := email, token := token, token_type := "password_reset",
      expires_at := now + 3600, used := false, used_at := none, created_at := now }
  if insert_ok then (db1 ++ [row], true) else (db1, false)

/-- `TokenService.verify_token` (token_service.py lines 96-129), the
non-exceptional path: look the token up (`used = False` filter), fail if
absent or expired (`datetime.utcnow() > expires_at`), otherwise run the
conditional update `update({used: True, used_at: now}).eq("id", id).eq("used", False)`
and succeed exactly when that update reports affected rows.
Returns the resulting table together with the boolean result. -/
def verify_token (email token token_type : String) (now : Nat)
    (db : List TokenRow) : List TokenRow × Bool :=
  match findToken email token token_type db with
  | [] => (db, false)
  | record :: _ =>
    if now > record.expires_at then (db, false)
    else
      let matched := db.filter (fun r => r.id == record.id && r.used == false)
      let db1 := db.map (fun r =>
        if r.id == record.id && r.used == false then
          { r with used := true, used_at := some now }
        else r)
      (db1, !matched.isEmpty)

/-- `TokenService.verify_token` including its `try/except` wrapper
(token_service.py lines 98 and 127-129): any exception raised by the
storage backend is caught and `False` is returned. `backend` is the
outcome of reaching the storage layer: `Except.error` models a raised
exception, `Except.ok db` a reachable table `db`. -/
def verify_token_catching (backend : Except Unit (List TokenRow))
    (email token token_type : String) (now : Nat) : Bool :=
  match backend with
  | .error _ => false
  | .ok db => (verify_token email token token_type now db).2

/-- A store operation of the token service, as invokable by callers:
either `store_verification_token` or `store_reset_token`, with the
email, token text, current time, assigned row id and insert outcome. -/
inductive StoreOp where
  | storeVerification (email token : String) (now id : Nat) (insert_ok : Bool)
  | storeReset (email token : String) (now id : Nat) (insert_ok : Bool)
deriving DecidableEq, Repr

/-- Apply one store operation to the table. -/
def applyOp (db : List TokenRow) : StoreOp → List TokenRow
  | .storeVerification email token now id ok => (store_verification_token email token now id ok db).1
  | .storeReset email token now id ok => (store_reset_token email token now id ok db).1

/-- Apply a sequence of store operations, oldest first. -/
def applyOps (ops : List StoreOp) (db : List TokenRow) : List TokenRow :=
  ops.foldl applyOp db

/-- Number of unused rows for an `(email, token_type)` pair. -/
def unusedCount (email token_type : String) (db : List TokenRow) : Nat :=
  db.countP (fun r => r.email == email && r.token_type == token_type && r.used == false)

/-- Number of live rows for an `(email, token_type)` pair at time `now`:
unused and unexpired (`verify_token` treats a row as expired iff
`now > expires_at`). -/
def liveCount (email token_type : String) (now : Nat) (db : List TokenRow) : Nat :=
  db.countP (fun r => r.email == email && r.token_type == token_type && r.used == false
    && decide (now ≤ r.expires_at))

/-- After `invalidate_existing_tokens` runs for a pair, no unused row of
that pair remains: every matching unused row was just marked used. -/
theorem unusedCount_invalidate_self (email ty : String) (now : Nat) (db : List TokenRow) :
    unusedCount email ty (invalidate_existing_tokens email ty now db) = 0 := by
  unfold unusedCount invalidate_existing_tokens
  rw [List.countP_map, List.countP_eq_zero]
  intro r _
  simp only [Function.comp_apply]
  split
  · simp
  · rename_i hneg
    simpa using hneg

/-- `invalidate_existing_tokens` for one pair leaves the unused count of
every other pair unchanged. -/
theorem unusedCount_invalidate_other (email ty email' ty' : String) (now : Nat)
    (db : List TokenRow) (h : email' ≠ email ∨ ty' ≠ ty) :
    unusedCount email' ty' (invalidate_existing_tokens email ty now db) =
      unusedCount email' ty' db := by
  unfold unusedCount invalidate_existing_tokens
  rw [List.countP_map]
  apply List.countP_congr
  intro r _
  simp only [Function.comp_apply]
  split
  · rename_i hpos
    constructor
    · intro hx
      simp at hx
    · intro hx
      simp only [Bool.and_eq_true, beq_iff_eq] at hx hpos
      exfalso
      rcases h with h | h
      · exact h (hx.1.1.symm.trans hpos.1.1)
      · exact h (hx.1.2.symm.trans hpos.1.2)
  · exact Iff.rfl

/-- Unused count distributes over append (insertion of the new row). -/
theorem unusedCount_append (email ty : String) (db1 db2 : List TokenRow) :
    unusedCount email ty (db1 ++ db2) = unusedCount email ty db1 + unusedCount email ty db2 := by
  unfold unusedCount
  exact List.countP_append _ _ _

/-- A live row is in particular unused, so the live count never exceeds
the unused count. -/
theorem liveCount_le_unusedCount (email ty : String) (now : Nat) (db : List TokenRow) :
    liveCount email ty now db ≤ unusedCount email ty db := by
  unfold liveCount unusedCount
  apply List.countP_mono_left
  intro r _ hr
  simp only [Bool.and_eq_true] at hr ⊢
  exact ⟨⟨hr.1.1.1, hr.1.1.2⟩, hr.1.2⟩

/-- Live count distributes over append. -/
theorem liveCount_append (email ty : String) (now : Nat) (db1 db2 : List TokenRow) :
    liveCount email ty now (db1 ++ db2) = liveCount email ty now db1 + liveCount email ty now db2 := by
  unfold liveCount
  exact List.countP_append _ _ _

/-- The unused count of a singleton table holding one fresh (unused) row:
`1` for the row's own pair, `0` for any other pair. -/
theorem unusedCount_fresh_row (email token ty : String) (now id expiry : Nat) (e ty' : String) :
    unusedCount e ty'
      [{ id := id, email := email, token := token, token_type := ty,
         expires_at := expiry, used := false, used_at := none, created_at := now }] =
      if email = e ∧ ty = ty' then 1 else 0 := by
  unfold unusedCount
  by_cases hc : email = e ∧ ty = ty'
  · simp [List.countP_cons, hc.1, hc.2]
  · rw [not_and_or] at hc
    rcases hc with hc | hc <;> simp [List.countP_cons, hc]

/-- `store_verification_token` leaves at most one unused row for every pair,
provided the table already satisfied that bound. -/
theorem unusedCount_store_verification_le (email token : String) (now id : Nat) (ok : Bool)
    (db : List TokenRow) (h : ∀ e' ty', unusedCount e' ty' db ≤ 1) (e ty : String) :
    unusedCount e ty (store_verification_token email token now id ok db).1 ≤ 1 := by
  unfold store_verification_token
  cases ok with
  | false =>
    simp only [Bool.false_eq_true, if_neg, ite_false]
    by_cases he : e = email ∧ ty = "email_verification"
    · rw [he.1, he.2, unusedCount_invalidate_self]
      exact Nat.zero_le 1
    · rw [not_and_or] at he
      rw [unusedCount_invalidate_other _ _ _ _ _ _ he]
      exact h e ty
  | true =>
    simp only [ite_true]
    rw [unusedCount_append, unusedCount_fresh_row]
    by_cases he : e = email ∧ ty = "email_verification"
    · rw [he.1, he.2, unusedCount_invalidate_self]
      simp [he.1, he.2]
    · rw [not_and_or] at he
      rw [unusedCount_invalidate_other _ _ _ _ _ _ he]
      have : ¬(email = e ∧ "email_verification" = ty) := by
        rcases he with he | he
        · exact fun q => he q.1.symm
        · exact fun q => he q.2.symm
      rw [if_neg this]
      simpa using h e ty

/-- `store_reset_token` leaves at most one unused row for every pair,
provided the table already satisfied that bound. -/
theorem unusedCount_store_reset_le (email token : String) (now id : Nat) (ok : Bool)
    (db : List TokenRow) (h : ∀ e' ty', unusedCount e' ty' db ≤ 1) (e ty : String) :
    unusedCount e ty (store_reset_token email token now id ok db).1 ≤ 1 := by
  unfold store_reset_token
  cases ok with
  | false =>
    simp only [Bool.false_eq_true, if_neg, ite_false]
    by_cases he : e = email ∧ ty = "password_reset"
    · rw [he.1, he.2, unusedCount_invalidate_self]
      exact Nat.zero_le 1
    · rw [not_and_or] at he
      rw [unusedCount_invalidate_other _ _ _ _ _ _ he]
      exact h e ty
  | true =>
    simp only [ite_true]
    rw [unusedCount_append, unusedCount_fresh_row]
    by_cases he : e = email ∧ ty = "password_reset"
    · rw [he.1, he.2, unusedCount_invalidate_self]
      simp [he.1, he.2]
    · rw [not_and_or] at he
      rw [unusedCount_invalidate_other _ _ _ _ _ _ he]
      have : ¬(email = e ∧ "password_reset" = ty) := by
        rcases he with he | he
        · exact fun q => he q.1.symm
        · exact fun q => he q.2.symm
      rw [if_neg this]
      simpa using h e ty

/-- One store operation preserves the at-most-one-unused-row-per-pair bound. -/
theorem unusedCount_applyOp_le (db : List TokenRow) (op : StoreOp)
    (h : ∀ e' ty', unusedCount e' ty' db ≤ 1) (e ty : String) :
    unusedCount e ty (applyOp db op) ≤ 1 := by
  cases op with
  | storeVerification email token now id ok =>
    exact unusedCount_store_verification_le email token now id ok db h e ty
  | storeReset email token now id ok =>
    exact unusedCount_store_reset_le email token now id ok db h e ty

/-- Any sequence of store operations preserves the bound. -/
theorem unusedCount_applyOps_le (ops : List StoreOp) (db : List TokenRow)
    (h : ∀ e' ty', unusedCount e' ty' db ≤ 1) (e ty : String) :
    unusedCount e ty (applyOps ops db) ≤ 1 := by
  induction ops generalizing db with
  | nil => exact h e ty
  | cons op rest ih =>
    exact ih (applyOp db op) (fun e' ty' => unusedCount_applyOp_le db op h e' ty')

/-- Right after a successful `store_verification_token` at time `now`,
exactly one live `email_verification` row exists for the email: the
invalidation zeroed every earlier one and the fresh row is live. -/
theorem liveCount_store_verification (email token : String) (now id : Nat)
    (db : List TokenRow) :
    liveCount email "email_verification" now
      (store_verification_token email token now id true db).1 = 1 := by
  unfold store_verification_token
  simp only [ite_true]
  rw [liveCount_append]
  have h0 : liveCount email "email_verification" now
      (invalidate_existing_tokens email "email_verification" now db) = 0 := by
    have h1 := liveCount_le_unusedCount email "email_verification" now
      (invalidate_existing_tokens email "email_verification" now db)
    rw [unusedCount_invalidate_self] at h1
    exact Nat.le_zero.mp h1
  rw [h0]
  simp [liveCount, List.countP_cons, Nat.le_add_right]

/-- Same as `liveCount_store_verification` for `store_reset_token`. -/
theorem liveCount_store_reset (email token : String) (now id : Nat)
    (db : List TokenRow) :
    liveCount email "password_reset" now
      (store_reset_token email token now id true db).1 = 1 := by
  unfold store_reset_token
  simp only [ite_true]
  rw [liveCount_append]
  have h0 : liveCount email "password_reset" now
      (invalidate_existing_tokens email "password_reset" now db) = 0 := by
    have h1 := liveCount_le_unusedCount email "password_reset" now
      (invalidate_existing_tokens email "password_reset" now db)
    rw [unusedCount_invalidate_self] at h1
    exact Nat.le_zero.mp h1
  rw [h0]
  simp [liveCount, List.countP_cons, Nat.le_add_right]

/-!
Section: Interleaving model of concurrent `verify_token` calls

`TokenService.verify_token` (token_service.py lines 96-129) performs, for a
stored, matching, unexpired token, two atomic storage operations:

1. the select of line 100, filtered on `used = False` (followed by the pure
   expiry check of lines 109-112, which passes for an unexpired token); if
   the row is already used the select returns no data and the call returns
   `False` (lines 102-104);
2. the conditional update of lines 115-118, guarded by `.eq("used", False)`;
   the call returns `True` iff this update reports affected data
   (lines 120-125).

Two concurrent invocations on the same `(email, token, purpose)` are modelled
as two threads, each executing step 1 then step 2, interleaved in an
arbitrary order on the shared `used` flag of the single matching row. -/

/-- Program counter of one `verify_token` invocation: before the select
(line 100), before the conditional update (lines 115-118), or returned. -/
inductive Pc where
  | atSelect
  | atUpdate
  | finished
deriving DecidableEq, Repr, Fintype

/-- Shared `used` flag of the matched row together with both invocations'
program counters and (eventual) return values. -/
structure RaceState where
  used : Bool
  pc1 : Pc
  res1 : Bool
  pc2 : Pc
  res2 : Bool
deriving DecidableEq, Repr, Fintype

/-- Both invocations about to run their select against an unused (live) row;
return values default to `False`. -/
def raceInit : RaceState :=
  { used := false, pc1 := .atSelect, res1 := false, pc2 := .atSelect, res2 := false }

/-- One atomic step of one invocation against the shared `used` flag:
* at the select: an already-used row is filtered out, so the invocation
  returns `False` (lines 102-104); otherwise it proceeds to the update;
* at the conditional update: if `used` is still `False` it flips it and the
  invocation returns `True` (lines 120-122); otherwise zero rows are
  affected and it returns `False` (lines 123-125);
* once finished, no further effect. -/
def threadStep (used : Bool) (pc : Pc) (res : Bool) : Bool × Pc × Bool :=
  match pc with
  | .atSelect => if used then (used, .finished, false) else (used, .atUpdate, res)
  | .atUpdate => if used then (used, .finished, false) else (true, .finished, true)
  | .finished => (used, pc, res)

/-- Scheduler step: `true` lets invocation 1 take its next atomic step,
`false` invocation 2. -/
def raceStep (s : RaceState) (t : Bool) : RaceState :=
  if t then
    let (u, pc, res) := threadStep s.used s.pc1 s.res1
    { s with used := u, pc1 := pc, res1 := res }
  else
    let (u, pc, res) := threadStep s.used s.pc2 s.res2
    { s with used := u, pc2 := pc, res2 := res }

/-- Run an arbitrary finite schedule from the initial state. -/
def raceRun (sched : List Bool) : RaceState :=
  sched.foldl raceStep raceInit

/-- Let both invocations run to completion (two further steps each always
suffice); appending these steps realises one particular way of finishing an
arbitrary interleaving. -/
def raceFinish (s : RaceState) : RaceState :=
  raceStep (raceStep (raceStep (raceStep s true) true) false) false

/-- Inductive invariant of the race: the row is used exactly when some
invocation has already won, at most one invocation ever wins, a winner has
finished, and while the row is unused nobody has finished. -/
def RaceInv (s : RaceState) : Prop :=
  s.used = (s.res1 || s.res2) ∧
  ¬(s.res1 = true ∧ s.res2 = true) ∧
  (s.res1 = true → s.pc1 = .finished) ∧
  (s.res2 = true → s.pc2 = .finished) ∧
  (s.used = false → s.pc1 ≠ .finished ∧ s.pc2 ≠ .finished)

instance (s : RaceState) : Decidable (RaceInv s) := by
  unfold RaceInv
  infer_instance

theorem raceInv_init : RaceInv raceInit := by decide

theorem raceInv_step : ∀ s : RaceState, ∀ t : Bool, RaceInv s → RaceInv (raceStep s t) := by
  decide

theorem raceInv_run (sched : List Bool) : RaceInv (raceRun sched) := by
  unfold raceRun
  induction sched using List.reverseRecOn with
  | nil => exact raceInv_init
  | append_singleton rest t ih =>
    rw [List.foldl_append]
    exact raceInv_step _ t ih

theorem raceInv_finish_exactly_one :
    ∀ s : RaceState, RaceInv s →
      xor (raceFinish s).res1 (raceFinish s).res2 = true ∧ (raceFinish s).used = true := by
  decide

/-- Sequential sanity bridge for the race model, select side: the line-100
select over a single-row table returns the row iff it is still unused. -/
theorem findToken_single_unused (r : TokenRow) (h1 : r.used = false) :
    findToken r.email r.token r.token_type [r] = [r] := by
  simp [findToken, h1]

/-- Sequential sanity bridge, consumed side: once the row is used the
select filters it out and `verify_token` returns `False` leaving the table
unchanged (lines 102-104). -/
theorem verify_token_single_used (r : TokenRow) (now : Nat) (h1 : r.used = true)
    (email token token_type : String) :
    verify_token email token token_type now [r] = ([r], false) := by
  simp [verify_token, findToken, h1]

/-- Sequential sanity bridge, winning side: on a single live matching row,
`verify_token` marks it used with a `used_at` stamp and returns `True`
(lines 115-122). -/
theorem verify_token_single_live (r : TokenRow) (now : Nat) (h1 : r.used = false)
    (h2 : ¬now > r.expires_at) :
    verify_token r.email r.token r.token_type now [r] =
      ([{ r with used := true, used_at := some now }], true) := by
  simp [verify_token, findToken, h1, h2]

end TokenService

/-!
Section: Session Authority (`auth.py`)

JWT payloads are modelled explicitly; the HMAC signature of `jwt.encode`
is modelled as the (payload, key) pair itself, so that a signature check
succeeds exactly when the token was produced by `jwt_encode` with the same
payload and the same key — any tampering with the payload or key mismatch
makes `jwt_decode` fail, as `jose.jwt.decode` raises `JWTError`. -/

/-- The claims `auth.py` places in a token: `sub`, `exp`, `type`
(lines 52-56 and 62-66). `Option` models claims `payload.get` may miss. -/
structure JwtPayload where
  sub : Option String
  exp : Nat
  type : Option String
deriving DecidableEq, Repr

/-- A serialized JWT: payload plus signature over (payload, key). -/
structure Jwt where
  payload : JwtPayload
  sig : JwtPayload × String
deriving DecidableEq, Repr

/-- `jwt.encode(to_encode, SECRET_KEY, algorithm=ALGORITHM)`. -/
def jwt_encode (p : JwtPayload) (key : String) : Jwt :=
  { payload := p, sig := (p, key) }

/-- `jwt.decode(token, SECRET_KEY, algorithms=[ALGORITHM])`: raises
`JWTError` (modelled as `Except.error ()`) on a signature that does not
match the payload under the given key, or on an expired `exp` claim
(`ExpiredSignatureError` is a `JWTError`); otherwise yields the payload. -/
def jwt_decode (t : Jwt) (key : String) (now : Nat) : Except Unit JwtPayload :=
  if t.sig ≠ (t.payload, key) then .error ()
  else if now > t.payload.exp then .error ()
  else .ok t.payload

/-- The `HTTPException`s `auth.py` raises: status code and detail. -/
structure HTTPError where
  status_code : Nat
  detail : String
deriving DecidableEq, Repr

namespace AuthService

/-- `ACCESS_TOKEN_EXPIRE_MINUTES = 30` (auth.py line 32), in seconds. -/
def accessTokenTtl : Nat := 30 * 60

/-- `REFRESH_TOKEN_EXPIRE_DAYS = 7` (auth.py line 33), in seconds. -/
def refreshTokenTtl : Nat := 7 * 24 * 3600

/-- `AuthService.create_access_token` (auth.py lines 49-57). -/
def create_access_token (user_id : String) (now : Nat) (key : String) : Jwt :=
  jwt_encode { sub := some user_id, exp := now + accessTokenTtl, type := some "access" } key

/-- `AuthService.create_refresh_token` (auth.py lines 59-67). -/
def create_refresh_token (user_id : String) (now : Nat) (key : String) : Jwt :=
  jwt_encode { sub := some user_id, exp := now + refreshTokenTtl, type := some "refresh" } key

/-- `AuthService.verify_token` (auth.py lines 69-88): decode, then require
a `sub` claim and a `type` claim equal to the expected kind; every failure
path — `JWTError` (bad signature, tampering, expiry) as well as missing
`sub` or wrong kind — raises the same `HTTPException(401, "Invalid token")`. -/
def verify_token (token : Jwt) (token_type : String) (key : String) (now : Nat) :
    Except HTTPError String :=
  match jwt_decode token key now with
  | .error _ => .error { status_code := 401, detail := "Invalid token" }
  | .ok payload =>
    match payload.sub with
    | none => .error { status_code := 401, detail := "Invalid token" }
    | some user_id =>
      if payload.type ≠ some token_type then
        .error { status_code := 401, detail := "Invalid token" }
      else .ok user_id

/-- `AuthService.verify_refresh_token` (auth.py lines 94-96). -/
def verify_refresh_token (token : Jwt) (key : String) (now : Nat) :
    Except HTTPError String :=
  verify_token token "refresh" key now

end AuthService

/-!
Section: Users (`database.py` user operations and `auth.py` service layer)

A row of the `users` table. `password_hash` is `Option String`: `some h`
when the column holds a hash, `none` once `user.pop("password_hash", None)`
has removed the key from the returned dict. Absent/NULL avatar values
(Python-falsy) are modelled as `none`. -/
structure User where
  id : String
  email : String
  password_hash : Option String
  name : String
  age : Nat
  avatar_url : Option String
  email_verified : Bool
deriving DecidableEq, Repr

/-- `user.pop("password_hash", None)` before returning a user
(auth.py lines 130, 164, 187, 210, 232, 283). -/
def pop_password_hash (u : User) : User :=
  { u with password_hash := none }

/-- `Database.get_user_by_email` (database.py lines 178-198):
`select("*").eq("email", email)`, returning `result.data[0]` when present. -/
def db_get_user_by_email (db : List User) (email : String) : Option User :=
  (db.filter (fun u => u.email == email)).head?

/-- `Database.get_user_by_id` (database.py lines 200-220). -/
def db_get_user_by_id (db : List User) (user_id : String) : Option User :=
  (db.filter (fun u => u.id == user_id)).head?

/-- `Database.create_user` (database.py lines 153-176): inserts the row and
returns it (`result.data[0]`). -/
def db_create_user (db : List User) (u : User) : List User × User :=
  (db ++ [u], u)

/-- A partial update dict for the `users` table: `some` for the keys
present in `update_data`. -/
structure UserUpdate where
  password_hash : Option String := none
  name : Option String := none
  age : Option Nat := none
  avatar_url : Option String := none
  email_verified : Option Bool := none
deriving DecidableEq, Repr

/-- Merge an update dict into a row, key by key. -/
def applyUserUpdate (u : User) (upd : UserUpdate) : User :=
  { u with
    password_hash := if upd.password_hash.isSome then upd.password_hash else u.password_hash,
    name := upd.name.getD u.name,
    age := upd.age.getD u.age,
    avatar_url := if upd.avatar_url.isSome then upd.avatar_url else u.avatar_url,
    email_verified := upd.email_verified.getD u.email_verified }

/-- `Database.update_user` (database.py lines 222-248):
`update(serialized_data).eq("id", user_id)`, returning the first updated
row, or `none` for the raising path when no row matched. -/
def db_update_user (db : List User) (user_id : String) (upd : UserUpdate) :
    List User × Option User :=
  let db1 := db.map (fun u => if u.id == user_id then applyUserUpdate u upd else u)
  (db1, (db1.filter (fun u => u.id == user_id)).head?)

namespace AuthService

/-- `AuthService.create_user` (auth.py lines 98-138), success path: builds
the row with the hashed password and `email_verified = False`, inserts it
via `Database.create_user`, pops `password_hash` from the returned dict.
Hashing is external (bcrypt): `hashed_password` is the hash that
`hash_password` produced; `new_id` is the id Supabase auth assigned. -/
def create_user (db : List User) (email hashed_password name : String) (age : Nat)
    (avatar : Option String) (new_id : String) : List User × User :=
  let db_user : User :=
    { id := new_id, email := email, password_hash := some hashed_password,
      name := name, age := age, avatar_url := avatar, email_verified := false }
  let (db1, created) := db_create_user db db_user
  (db1, pop_password_hash created)

/-- `AuthService.create_user_from_dict` (auth.py lines 140-172), success
path: like `create_user` but with a generated id and
`email_verified = True` (OAuth users are pre-verified). -/
def create_user_from_dict (db : List User) (email hashed_password name : String)
    (age : Nat) (avatar : Option String) (new_id : String) : List User × User :=
  let db_user : User :=
    { id := new_id, email := email, password_hash := some hashed_password,
      name := name, age := age, avatar_url := avatar, email_verified := true }
  let (db1, created) := db_create_user db db_user
  (db1, pop_password_hash created)

/-- `AuthService.authenticate_user` (auth.py lines 174-199): look the user
up by email; if absent return `None`; accept when the email is the demo
account `demo@safedoser.com` or the bcrypt check passes, popping
`password_hash` from the returned dict; otherwise return `None`.
`password_matches` is the external bcrypt oracle
`verify_password(password, user.get("password_hash", ""))`. -/
def authenticate_user (db : List User) (email password : String)
    (password_matches : String → Option String → Bool) : Option User :=
  match db_get_user_by_email db email with
  | none => none
  | some user =>
    if email = "demo@safedoser.com" ∨ password_matches password user.password_hash then
      some (pop_password_hash user)
    else none

/-- `AuthService.get_user_by_id` (auth.py lines 205-211): fetch by id and
pop `password_hash` when a user was found. -/
def get_user_by_id (db : List User) (user_id : String) : Option User :=
  (db_get_user_by_id db user_id).map pop_password_hash

/-- `AuthService.get_user_by_id_with_verification_check`
(auth.py lines 213-233): `None` for an unknown id; raise
`HTTPException(401, ...)` when the email is unverified — unless it is the
demo account — and otherwise return the user with `password_hash` popped.
(The auto-resend of the verification email before raising is an external
side effect, not part of the returned value.) -/
def get_user_by_id_with_verification_check (db : List User) (user_id : String) :
    Except HTTPError (Option User) :=
  match db_get_user_by_id db user_id with
  | none => .ok none
  | some user =>
    if user.email ≠ "demo@safedoser.com" ∧ user.email_verified = false then
      .error { status_code := 401,
               detail := "Email not verified. A new verification email has been sent to your inbox. Please verify your email address to continue using the app." }
    else .ok (some (pop_password_hash user))

/-- `AuthService.update_user` (auth.py lines 268-292), success path: a
`password` key was already re-keyed to `password_hash` (hashed) and
`avatar` to `avatar_url` by the time the dict reaches the database;
the row returned by `Database.update_user` has `password_hash` popped. -/
def update_user (db : List User) (user_id : String) (upd : UserUpdate) :
    List User × Option User :=
  let (db1, updated) := db_update_user db user_id upd
  (db1, updated.map pop_password_hash)

end AuthService

/-!
Section: OAuth reconciliation (`oauth_service.py`) -/

/-- The normalized external profile `google_callback` builds
(oauth_service.py lines 201-208). -/
structure OAuthProfile where
  email : String
  name : String
  avatar_url : Option String
  email_verified : Bool
deriving DecidableEq, Repr

namespace OAuthService

/-- The `update_data` dict built in the found branch of
`create_or_get_oauth_user` (oauth_service.py lines 238-242): an
`email_verified: True` key only when the local user is unverified and the
external profile says verified; an `avatar_url` key only when the external
profile has one and the local user has none. -/
def merge_update_dict (existing : User) (p : OAuthProfile) : UserUpdate :=
  { email_verified :=
      if !existing.email_verified && p.email_verified then some true else none,
    avatar_url :=
      if p.avatar_url.isSome && existing.avatar_url.isNone then p.avatar_url else none }

/-- The found branch of `create_or_get_oauth_user` viewed on the returned
dict (oauth_service.py lines 235-248): `existing_user.update(update_data)`
together with the `if update_data:` persistence flag. -/
def merge_oauth (existing : User) (p : OAuthProfile) : User × Bool :=
  let upd := merge_update_dict existing p
  (applyUserUpdate existing upd, !(upd == ({} : UserUpdate)))

/-- `OAuthService.create_or_get_oauth_user` (oauth_service.py lines
229-283). Found branch: build `update_data`, persist it through
`update_user` only when nonempty, and return the merged existing user — no
row is inserted. Not-found branch: create a row through
`create_user_from_dict` (random placeholder password, default `age = 25`,
`email_verified = True`), then persist `email_verified` to the external
profile's value. `random_password_hash` is the hash of the generated
placeholder password.
Result: `(table, returned user, persisted an update, created a new row)`. -/
def create_or_get_oauth_user (db : List User) (p : OAuthProfile)
    (fresh_id random_password_hash : String) : List User × User × Bool × Bool :=
  match db_get_user_by_email db p.email with
  | some existing =>
    let upd := merge_update_dict existing p
    let persisted := !(upd == ({} : UserUpdate))
    let db1 := if persisted then (AuthService.update_user db existing.id upd).1 else db
    (db1, applyUserUpdate existing upd, persisted, false)
  | none =>
    let (db1, user) :=
      AuthService.create_user_from_dict db p.email random_password_hash p.name 25
        p.avatar_url fresh_id
    let oauth_verified := p.email_verified
    let (db2, _) := AuthService.update_user db1 user.id { email_verified := some oauth_verified }
    ((db2 : List User), { user with email_verified := oauth_verified }, true, true)

end OAuthService

/-!
Section: `/auth/forgot-password` (`app.py` lines 489-556) -/

/-- The JSON body `forgot_password` returns: the fixed `message`, the
`email_sent` flag, and the optional `reason` / `error_code` keys. -/
structure ResetResponse where
  message : String
  email_sent : Bool
  reason : Option String
  error_code : Option String
deriving DecidableEq, Repr

namespace App

/-- `forgot_password` (app.py lines 489-556): `userLookup` is the
`get_user_by_email` result; `token_stored` the `store_reset_token`
outcome; `email_ok`, `email_err_msg`, `email_err_code` the
`send_password_reset_email` delivery result. Each branch returns the same
`message` text, but the other keys differ per branch exactly as in the
source. -/
def forgot_password (userLookup : Option User) (token_stored : Bool)
    (email_ok : Bool) (email_err_msg : String) (email_err_code : Option String) :
    ResetResponse :=
  match userLookup with
  | none =>
    { message := "If the email exists in our system, a reset link has been sent",
      email_sent := false, reason := some "User not found", error_code := none }
  | some _ =>
    if !token_stored then
      { message := "If the email exists in our system, a reset link has been sent",
        email_sent := false, reason := some "Token storage failed", error_code := none }
    else if email_ok then
      { message := "If the email exists in our system, a reset link has been sent",
        email_sent := true, reason := none, error_code := none }
    else
      { message := "If the email exists in our system, a reset link has been sent",
        email_sent := false, reason := some email_err_msg, error_code := email_err_code }

end App

/-!
Claim theorems -/

/-- Claim C3: for every token row the line-100 lookup finds whose
`expires_at` lies in the past, `verify_token` returns false even though
the row matches `(email, token, purpose)` and is unused, and the table is
returned unmodified — the row's `used` flag stays false and no `used_at`
is written. -/
theorem c3_expired_token_fails_and_row_unmodified
    (db : List TokenRow) (email token token_type : String) (now : Nat)
    (r : TokenRow) (rest : List TokenRow)
    (hfind : TokenService.findToken email token token_type db = r :: rest)
    (hexp : now > r.expires_at) :
    TokenService.verify_token email token token_type now db = (db, false) := by
  unfold TokenService.verify_token
  rw [hfind]
  simp [hexp]

/-- Witness for C3: a concrete matching, unused row expired at time 200. -/
theorem c3_witness :
    TokenService.verify_token "alice@example.com" "tok" "password_reset" 200
      [{ id := 1, email := "alice@example.com", token := "tok",
         token_type := "password_reset", expires_at := 100, used := false,
         used_at := none, created_at := 0 }] =
      ([{ id := 1, email := "alice@example.com", token := "tok",
          token_type := "password_reset", expires_at := 100, used := false,
          used_at := none, created_at := 0 }], false) :=
  c3_expired_token_fails_and_row_unmodified
    [{ id := 1, email := "alice@example.com", token := "tok",
       token_type := "password_reset", expires_at := 100, used := false,
       used_at := none, created_at := 0 }]
    "alice@example.com" "tok" "password_reset" 200
    { id := 1, email := "alice@example.com", token := "tok",
      token_type := "password_reset", expires_at := 100, used := false,
      used_at := none, created_at := 0 }
    [] (by decide) (by decide)

/-- Claim C5, counterexample to distinctness: at a concrete input, the
value `verify_token` yields when the storage backend raises is the very
same `false` it yields for a token that does not exist — no distinct
retryable failure is propagated. -/
theorem c5_counterexample_backend_failure_not_distinct :
    TokenService.verify_token_catching (Except.error ()) "alice@example.com" "tok"
        "password_reset" 0 =
      TokenService.verify_token_catching (Except.ok []) "alice@example.com" "tok"
        "password_reset" 0 := by
  rfl

/-- Claim C5 as amended: when the storage backend raises, `verify_token`
catches the exception and returns false — the same value it returns for an
invalid (absent) token — so callers cannot distinguish a backend outage
from an invalid token. -/
theorem c5_backend_failure_swallowed_as_false (email token token_type : String) (now : Nat) :
    TokenService.verify_token_catching (Except.error ()) email token token_type now = false ∧
    TokenService.verify_token_catching (Except.error ()) email token token_type now =
      TokenService.verify_token_catching (Except.ok []) email token token_type now := by
  exact ⟨rfl, rfl⟩

/-- Claim C8: a stored `email_verification` token row carries
`expires_at = created_at + 24 * 3600` and a stored `password_reset` token
row carries `expires_at = created_at + 3600`; the rest of the resulting
table is exactly the invalidation of the previous rows. -/
theorem c8_expiry_fixed_at_creation :
    (∀ (email token : String) (now id : Nat) (ok : Bool) (db : List TokenRow),
      (TokenService.store_verification_token email token now id ok db).1 =
        TokenService.invalidate_existing_tokens email "email_verification" now db ++
          (if ok then
            [{ id := id, email := email, token := token,
               token_type := "email_verification", expires_at := now + 24 * 3600,
               used := false, used_at := none, created_at := now }]
          else [])) ∧
    (∀ (email token : String) (now id : Nat) (ok : Bool) (db : List TokenRow),
      (TokenService.store_reset_token email token now id ok db).1 =
        TokenService.invalidate_existing_tokens email "password_reset" now db ++
          (if ok then
            [{ id := id, email := email, token := token,
               token_type := "password_reset", expires_at := now + 3600,
               used := false, used_at := none, created_at := now }]
          else [])) := by
  constructor
  · intro email token now id ok db
    cases ok <;> simp [TokenService.store_verification_token]
  · intro email token now id ok db
    cases ok <;> simp [TokenService.store_reset_token]

/-- Claim C1: for a stored, unexpired token, two concurrent `verify_token`
invocations with the same `(email, token, purpose)` — modelled as the two
select/conditional-update threads of the race machine — end, under every
finite interleaving, with exactly one invocation returning true and the
other false; and the shared `used` flag is monotone under every step of the
machine (it transitions false to true at most once), because the marking
update is conditional on `used` still being false. -/
theorem c1_concurrent_verify_exactly_once :
    (∀ sched : List Bool,
      xor (TokenService.raceFinish (TokenService.raceRun sched)).res1
          (TokenService.raceFinish (TokenService.raceRun sched)).res2 = true ∧
      (TokenService.raceFinish (TokenService.raceRun sched)).used = true) ∧
    (∀ (s : TokenService.RaceState) (t : Bool),
      s.used ≤ (TokenService.raceStep s t).used) := by
  constructor
  · intro sched
    exact TokenService.raceInv_finish_exactly_one _ (TokenService.raceInv_run sched)
  · decide

/-- Claim C2: starting from an empty table, any sequence of
`store_verification_token` / `store_reset_token` operations leaves at most
one live (unused, unexpired) token per `(email, purpose)` pair at every
instant; and after two successive successful stores for the same email,
exactly one live token exists for that pair (the first one was marked used
by the invalidation pass that precedes the second insert). -/
theorem c2_at_most_one_live_token_per_pair :
    (∀ (ops : List TokenService.StoreOp) (e ty : String) (now : Nat),
      TokenService.liveCount e ty now (TokenService.applyOps ops []) ≤ 1) ∧
    (∀ (db : List TokenRow) (e t1 t2 : String) (n1 n2 id1 id2 : Nat),
      TokenService.liveCount e "email_verification" n2
        ((TokenService.store_verification_token e t2 n2 id2 true
          ((TokenService.store_verification_token e t1 n1 id1 true db).1)).1) = 1) ∧
    (∀ (db : List TokenRow) (e t1 t2 : String) (n1 n2 id1 id2 : Nat),
      TokenService.liveCount e "password_reset" n2
        ((TokenService.store_reset_token e t2 n2 id2 true
          ((TokenService.store_reset_token e t1 n1 id1 true db).1)).1) = 1) := by
  refine ⟨?_, ?_, ?_⟩
  · intro ops e ty now
    refine le_trans (TokenService.liveCount_le_unusedCount e ty now _) ?_
    refine TokenService.unusedCount_applyOps_le ops [] ?_ e ty
    intro e' ty'
    unfold TokenService.unusedCount
    simp
  · intro db e t1 t2 n1 n2 id1 id2
    exact TokenService.liveCount_store_verification e t2 n2 id2 _
  · intro db e t1 t2 n1 n2 id1 id2
    exact TokenService.liveCount_store_reset e t2 n2 id2 _

/-- Claim C4 (bug exhibit): at a concrete input — a nonexistent email
versus an existing user whose reset email is sent — the two
`forgot_password` responses are not identical: the nonexistent-email
response carries `email_sent = false` and `reason = "User not found"`,
while the existing-email response carries `email_sent = true`; only the
`message` text coincides. The caller can therefore tell whether the
account exists. -/
theorem c4_forgot_password_responses_differ :
    App.forgot_password none true true "" none ≠
      App.forgot_password
        (some { id := "u1", email := "alice@example.com", password_hash := none,
                name := "Alice", age := 30, avatar_url := none, email_verified := true })
        true true "" none ∧
    (App.forgot_password none true true "" none).message =
      (App.forgot_password
        (some { id := "u1", email := "alice@example.com", password_hash := none,
                name := "Alice", age := 30, avatar_url := none, email_verified := true })
        true true "" none).message := by
  exact ⟨by decide, rfl⟩

/-- Claim C6: a credential minted by `create_access_token`, verified with
expected kind refresh, always fails with `HTTPException(401, "Invalid
token")`; and wrong kind, bad signature / tampering, and expiry all raise
that identical undifferentiated error. -/
theorem c6_invalid_credential_undifferentiated :
    (∀ (user_id : String) (now : Nat) (key : String) (now' : Nat),
      AuthService.verify_token (AuthService.create_access_token user_id now key)
          "refresh" key now' =
        .error { status_code := 401, detail := "Invalid token" }) ∧
    (∀ (t : Jwt) (token_type key : String) (now : Nat),
      t.sig ≠ (t.payload, key) →
      AuthService.verify_token t token_type key now =
        .error { status_code := 401, detail := "Invalid token" }) ∧
    (∀ (t : Jwt) (token_type key : String) (now : Nat),
      now > t.payload.exp →
      AuthService.verify_token t token_type key now =
        .error { status_code := 401, detail := "Invalid token" }) ∧
    (∀ (p : JwtPayload) (token_type key : String) (now : Nat),
      p.type ≠ some token_type →
      AuthService.verify_token (jwt_encode p key) token_type key now =
        .error { status_code := 401, detail := "Invalid token" }) := by
  refine ⟨?_, ?_, ?_, ?_⟩
  · intro user_id now key now'
    unfold AuthService.verify_token AuthService.create_access_token jwt_encode jwt_decode
    by_cases h : now' > now + AuthService.accessTokenTtl
    · simp [h]
    · simp [h]
  · intro t token_type key now h
    simp [AuthService.verify_token, jwt_decode, h]
  · intro t token_type key now h
    by_cases hs : t.sig ≠ (t.payload, key)
    · simp [AuthService.verify_token, jwt_decode, hs]
    · simp [AuthService.verify_token, jwt_decode, hs, h]
  · intro p token_type key now h
    unfold AuthService.verify_token jwt_encode jwt_decode
    by_cases hexp : now > p.exp
    · simp [hexp]
    · cases hsub : p.sub <;> simp [hexp, hsub, h]

/-- Witness for C6: the four failure modes at concrete inputs — an access
credential checked as refresh, a tampered signature, an expired
credential, and a well-signed credential of the wrong kind — all yield
the same 401 response. -/
theorem c6_witness :
    AuthService.verify_token (AuthService.create_access_token "u1" 0 "k") "refresh" "k" 0 =
      .error { status_code := 401, detail := "Invalid token" } ∧
    AuthService.verify_token
        { payload := { sub := some "u1", exp := 10, type := some "access" },
          sig := ({ sub := some "u1", exp := 10, type := some "access" }, "other") }
        "access" "k" 0 =
      .error { status_code := 401, detail := "Invalid token" } ∧
    AuthService.verify_token
        (jwt_encode { sub := some "u1", exp := 10, type := some "access" } "k")
        "access" "k" 1000 =
      .error { status_code := 401, detail := "Invalid token" } ∧
    AuthService.verify_token
        (jwt_encode { sub := some "u1", exp := 10, type := some "access" } "k")
        "refresh" "k" 0 =
      .error { status_code := 401, detail := "Invalid token" } :=
  ⟨c6_invalid_credential_undifferentiated.1 "u1" 0 "k" 0,
   c6_invalid_credential_undifferentiated.2.1 _ "access" "k" 0 (by decide),
   c6_invalid_credential_undifferentiated.2.2.1 _ "access" "k" 1000 (by decide),
   c6_invalid_credential_undifferentiated.2.2.2 _ "refresh" "k" 0 (by decide)⟩

/-- Claim C9: when a user record with email `demo@safedoser.com` exists,
`authenticate_user` returns it (password hash popped) for every supplied
password and every outcome of the bcrypt check; and
`get_user_by_id_with_verification_check` skips the email-verification
check for that email, returning the user even if unverified. -/
theorem c9_demo_account_bypasses_checks :
    (∀ (db : List User) (u : User) (password : String)
        (password_matches : String → Option String → Bool),
      db_get_user_by_email db "demo@safedoser.com" = some u →
      AuthService.authenticate_user db "demo@safedoser.com" password password_matches =
        some (pop_password_hash u)) ∧
    (∀ (db : List User) (user_id : String) (u : User),
      db_get_user_by_id db user_id = some u →
      u.email = "demo@safedoser.com" →
      AuthService.get_user_by_id_with_verification_check db user_id =
        .ok (some (pop_password_hash u))) := by
  constructor
  · intro db u password password_matches hl
    unfold AuthService.authenticate_user
    rw [hl]
    simp
  · intro db user_id u hl he
    unfold AuthService.get_user_by_id_with_verification_check
    rw [hl]
    dsimp only
    have hc : ¬(u.email ≠ "demo@safedoser.com" ∧ u.email_verified = false) :=
      fun hx => hx.1 he
    rw [if_neg hc]

/-- Witness for C9: a concrete unverified demo user is authenticated with
a failing bcrypt oracle and passes the verification check. -/
theorem c9_witness :
    AuthService.authenticate_user
        [{ id := "d1", email := "demo@safedoser.com", password_hash := some "h",
           name := "Demo", age := 20, avatar_url := none, email_verified := false }]
        "demo@safedoser.com" "wrong-password" (fun _ _ => false) =
      some { id := "d1", email := "demo@safedoser.com", password_hash := none,
             name := "Demo", age := 20, avatar_url := none, email_verified := false } ∧
    AuthService.get_user_by_id_with_verification_check
        [{ id := "d1", email := "demo@safedoser.com", password_hash := some "h",
           name := "Demo", age := 20, avatar_url := none, email_verified := false }]
        "d1" =
      .ok (some { id := "d1", email := "demo@safedoser.com", password_hash := none,
                  name := "Demo", age := 20, avatar_url := none, email_verified := false }) :=
  ⟨c9_demo_account_bypasses_checks.1
     [{ id := "d1", email := "demo@safedoser.com", password_hash := some "h",
        name := "Demo", age := 20, avatar_url := none, email_verified := false }]
     { id := "d1", email := "demo@safedoser.com", password_hash := some "h",
       name := "Demo", age := 20, avatar_url := none, email_verified := false }
     "wrong-password" (fun _ _ => false) rfl,
   c9_demo_account_bypasses_checks.2
     [{ id := "d1", email := "demo@safedoser.com", password_hash := some "h",
        name := "Demo", age := 20, avatar_url := none, email_verified := false }]
     "d1"
     { id := "d1", email := "demo@safedoser.com", password_hash := some "h",
       name := "Demo", age := 20, avatar_url := none, email_verified := false }
     rfl rfl⟩

/-- Claim C10: every user record the service returns has the
`password_hash` key removed — `create_user`, `create_user_from_dict`,
`authenticate_user`, `get_user_by_id` and `update_user` never expose the
stored hash. -/
theorem c10_returned_users_never_carry_password_hash :
    (∀ (db : List User) (email hashed name : String) (age : Nat)
        (avatar : Option String) (new_id : String),
      ((AuthService.create_user db email hashed name age avatar new_id).2).password_hash =
        none) ∧
    (∀ (db : List User) (email hashed name : String) (age : Nat)
        (avatar : Option String) (new_id : String),
      ((AuthService.create_user_from_dict db email hashed name age avatar new_id).2).password_hash =
        none) ∧
    (∀ (db : List User) (email password : String)
        (password_matches : String → Option String → Bool) (u : User),
      AuthService.authenticate_user db email password password_matches = some u →
      u.password_hash = none) ∧
    (∀ (db : List User) (user_id : String) (u : User),
      AuthService.get_user_by_id db user_id = some u → u.password_hash = none) ∧
    (∀ (db : List User) (user_id : String) (upd : UserUpdate) (u : User),
      (AuthService.update_user db user_id upd).2 = some u → u.password_hash = none) := by
  refine ⟨?_, ?_, ?_, ?_, ?_⟩
  · intro db email hashed name age avatar new_id
    rfl
  · intro db email hashed name age avatar new_id
    rfl
  · intro db email password password_matches u h
    unfold AuthService.authenticate_user at h
    cases hl : db_get_user_by_email db email with
    | none => rw [hl] at h; exact absurd h (by simp)
    | some v =>
      rw [hl] at h
      dsimp only at h
      split at h
      · rw [← Option.some.inj h]
        rfl
      · exact absurd h (by simp)
  · intro db user_id u h
    unfold AuthService.get_user_by_id at h
    cases hl : db_get_user_by_id db user_id with
    | none => rw [hl] at h; exact absurd h (by simp)
    | some v =>
      rw [hl] at h
      rw [← Option.some.inj h]
      rfl
  · intro db user_id upd u h
    unfold AuthService.update_user db_update_user at h
    simp only [Option.map_eq_some'] at h
    obtain ⟨v, _, hv⟩ := h
    rw [← hv]
    rfl

/-- Witness for C10: all five operations at concrete inputs return a user
without a password hash. -/
theorem c10_witness :
    ((AuthService.create_user [] "a@b.c" "hash" "A" 30 none "id1").2).password_hash = none ∧
    ((AuthService.create_user_from_dict [] "a@b.c" "hash" "A" 30 none "id1").2).password_hash = none ∧
    ({ id := "d1", email := "demo@safedoser.com", password_hash := none, name := "Demo",
       age := 20, avatar_url := none, email_verified := false } : User).password_hash = none :=
  ⟨c10_returned_users_never_carry_password_hash.1 [] "a@b.c" "hash" "A" 30 none "id1",
   c10_returned_users_never_carry_password_hash.2.1 [] "a@b.c" "hash" "A" 30 none "id1",
   c10_returned_users_never_carry_password_hash.2.2.1
     [{ id := "d1", email := "demo@safedoser.com", password_hash := some "h",
        name := "Demo", age := 20, avatar_url := none, email_verified := false }]
     "demo@safedoser.com" "pw" (fun _ _ => false)
     { id := "d1", email := "demo@safedoser.com", password_hash := none, name := "Demo",
       age := 20, avatar_url := none, email_verified := false } rfl⟩

/-- Claim C7: OAuth reconciliation is idempotent for an already-local
user — re-merging the merged user with the same external profile changes
nothing and persists nothing; the merge never flips `email_verified` from
true back to false and never overwrites an existing avatar; a persisting
update is issued exactly when some field actually changed; and the found
branch of `create_or_get_oauth_user` inserts no row (the table keeps its
length) and returns the merged existing user. -/
theorem c7_oauth_reconciliation_idempotent :
    (∀ (u : User) (p : OAuthProfile),
      OAuthService.merge_oauth (OAuthService.merge_oauth u p).1 p =
        ((OAuthService.merge_oauth u p).1, false)) ∧
    (∀ (u : User) (p : OAuthProfile),
      u.email_verified = true → ((OAuthService.merge_oauth u p).1).email_verified = true) ∧
    (∀ (u : User) (p : OAuthProfile) (a : String),
      u.avatar_url = some a → ((OAuthService.merge_oauth u p).1).avatar_url = some a) ∧
    (∀ (u : User) (p : OAuthProfile),
      ((OAuthService.merge_oauth u p).2 = true) ↔ (OAuthService.merge_oauth u p).1 ≠ u) ∧
    (∀ (db : List User) (p : OAuthProfile) (fresh_id rph : String) (u : User),
      db_get_user_by_email db p.email = some u →
      (OAuthService.create_or_get_oauth_user db p fresh_id rph).2.2.2 = false ∧
      ((OAuthService.create_or_get_oauth_user db p fresh_id rph).1).length = db.length ∧
      (OAuthService.create_or_get_oauth_user db p fresh_id rph).2.1 =
        (OAuthService.merge_oauth u p).1) := by
  refine ⟨?_, ?_, ?_, ?_, ?_⟩
  · intro u p
    obtain ⟨uid, uem, uph, unm, uag, uav, uev⟩ := u
    obtain ⟨pem, pnm, pav, pev⟩ := p
    cases uev <;> cases pev <;> cases uav <;> cases pav <;>
      simp [OAuthService.merge_oauth, OAuthService.merge_update_dict, applyUserUpdate]
  · intro u p h
    obtain ⟨uid, uem, uph, unm, uag, uav, uev⟩ := u
    obtain ⟨pem, pnm, pav, pev⟩ := p
    subst h
    cases pev <;> cases uav <;> cases pav <;>
      simp [OAuthService.merge_oauth, OAuthService.merge_update_dict, applyUserUpdate]
  · intro u p a h
    obtain ⟨uid, uem, uph, unm, uag, uav, uev⟩ := u
    obtain ⟨pem, pnm, pav, pev⟩ := p
    subst h
    cases uev <;> cases pev <;> cases pav <;>
      simp [OAuthService.merge_oauth, OAuthService.merge_update_dict, applyUserUpdate]
  · intro u p
    obtain ⟨uid, uem, uph, unm, uag, uav, uev⟩ := u
    obtain ⟨pem, pnm, pav, pev⟩ := p
    cases uev <;> cases pev <;> cases uav <;> cases pav <;>
      simp [OAuthService.merge_oauth, OAuthService.merge_update_dict, applyUserUpdate]
  · intro db p fresh_id rph u hl
    unfold OAuthService.create_or_get_oauth_user
    rw [hl]
    refine ⟨rfl, ?_, rfl⟩
    dsimp only
    split
    · simp [AuthService.update_user, db_update_user]
    · rfl

/-- Witness for C7: a concrete unverified, avatarless local user merged
twice with the same verified external profile; and the found branch on a
one-row table. -/
theorem c7_witness :
    (OAuthService.merge_oauth
      (OAuthService.merge_oauth
        { id := "u1", email := "a@b.c", password_hash := none, name := "A",
          age := 30, avatar_url := none, email_verified := false }
        { email := "a@b.c", name := "A", avatar_url := some "pic", email_verified := true }).1
      { email := "a@b.c", name := "A", avatar_url := some "pic", email_verified := true }) =
      ((OAuthService.merge_oauth
        { id := "u1", email := "a@b.c", password_hash := none, name := "A",
          age := 30, avatar_url := none, email_verified := false }
        { email := "a@b.c", name := "A", avatar_url := some "pic", email_verified := true }).1,
       false) ∧
    (OAuthService.merge_oauth
      { id := "u1", email := "a@b.c", password_hash := none, name := "A",
        age := 30, avatar_url := some "old", email_verified := true }
      { email := "a@b.c", name := "A", avatar_url := some "pic", email_verified := true }).1.avatar_url =
      some "old" ∧
    ((OAuthService.create_or_get_oauth_user
      [{ id := "u1", email := "a@b.c", password_hash := none, name := "A",
         age := 30, avatar_url := none, email_verified := false }]
      { email := "a@b.c", name := "A", avatar_url := some "pic", email_verified := true }
      "f1" "h1").1).length = 1 :=
  ⟨c7_oauth_reconciliation_idempotent.1
     { id := "u1", email := "a@b.c", password_hash := none, name := "A",
       age := 30, avatar_url := none, email_verified := false }
     { email := "a@b.c", name := "A", avatar_url := some "pic", email_verified := true },
   c7_oauth_reconciliation_idempotent.2.2.1
     { id := "u1", email := "a@b.c", password_hash := none, name := "A",
       age := 30, avatar_url := some "old", email_verified := true }
     { email := "a@b.c", name := "A", avatar_url := some "pic", email_verified := true }
     "old" rfl,
   (c7_oauth_reconciliation_idempotent.2.2.2.2
     [{ id := "u1", email := "a@b.c", password_hash := none, name := "A",
        age := 30, avatar_url := none, email_verified := false }]
     { email := "a@b.c", name := "A", avatar_url := some "pic", email_verified := true }
     "f1" "h1"
     { id := "u1", email := "a@b.c", password_hash := none, name := "A",
       age := 30, avatar_url := none, email_verified := false }
     rfl).2.1⟩

end SafeDoser
